import Mathlib

/-!
Shallow embedding of the AgentGatePay TypeScript SDK core:
the mandate lifecycle manager (src/javascript/src/config-loader.ts),
the payment settlement protocol (PaymentsModule: submitTxHash and
waitForConfirmation) and the webhook authenticity verifier
(src/javascript/src/modules/webhooks.ts), together with the input
validators from src/javascript/src/utils/validation.ts.

Conventions of the embedding:
- JavaScript exceptions become values of the sum type SdkError, and a
  method that can throw returns Except SdkError.
- The HTTP transport and the remote gateway are external collaborators:
  each remote call is a parameter of the embedded function, resolved to
  the Except value the call would produce.  A function of the embedding
  that returns the same result for every value of such a parameter makes
  no observable network request.
- JavaScript numbers are modelled by JsNum: a rational for every finite
  value plus the special values NaN, plus infinity and minus infinity.
  This captures exactly the distinctions the validators test (isNaN and
  ordering against 0) without modelling rounding, which no validator or
  claim depends on.
- Call counts (verify calls, issue calls, sleeps) are returned alongside
  results so that claims about how many remote calls or sleeps occur are
  statable.
-/

/-- Sum type of the error values raised by the SDK, one variant per
class in src/javascript/src/types.ts plus a variant for plain
JavaScript Error values thrown with only a message. -/
inductive SdkError where
  | validationError (msg : String)
  | networkError (msg : String)
  | rateLimitError (msg : String) (retryAfter limit remaining : Nat)
  | authenticationError (msg : String)
  | invalidTransactionError (msg : String) (reason : String)
  | mandateError (msg : String) (reason : String)
  | apiError (msg : String) (status : Nat)
  | genericError (msg : String)
deriving Repr, DecidableEq

/-- The statusCode property as read by waitForConfirmation.  Plain
Error values and network errors (AgentPayError built with statusCode
undefined) have none; the other AgentPayError subclasses carry the
fixed codes from types.ts, and the generic API error carries the HTTP
status of the response. -/
def statusCodeOf : SdkError → Option Nat
  | SdkError.validationError _ => none
  | SdkError.networkError _ => none
  | SdkError.rateLimitError _ _ _ _ => some 429
  | SdkError.authenticationError _ => some 401
  | SdkError.invalidTransactionError _ _ => some 400
  | SdkError.mandateError _ _ => some 400
  | SdkError.apiError _ status => some status
  | SdkError.genericError _ => none

/-- A JavaScript number: a finite rational, NaN, or a signed infinity. -/
inductive JsNum where
  | finite (q : ℚ)
  | nan
  | posInf
  | negInf
deriving Repr, DecidableEq

/-- The isNaN test of JavaScript. -/
def jsIsNaN : JsNum → Bool
  | JsNum.nan => true
  | _ => false

/-- The JavaScript comparison n less-or-equal 0; every comparison with
NaN is false, minus infinity is below 0 and plus infinity is not. -/
def jsLeZero : JsNum → Bool
  | JsNum.finite q => decide (q ≤ 0)
  | JsNum.nan => false
  | JsNum.posInf => false
  | JsNum.negInf => true

/-- JavaScript truthiness of a number: 0 and NaN are falsy. -/
def jsNumTruthy : JsNum → Bool
  | JsNum.finite q => decide (q ≠ 0)
  | JsNum.nan => false
  | JsNum.posInf => true
  | JsNum.negInf => true

/-- JavaScript truthiness of an optional string: undefined and the
empty string are falsy. -/
def optStrTruthy : Option String → Bool
  | none => false
  | some s => decide (s ≠ "")

/-- JavaScript or-chain a or b on an optional number a: a when present
and truthy, otherwise b. -/
def jsOrOpt (a : Option JsNum) (b : JsNum) : JsNum :=
  match a with
  | some x => if jsNumTruthy x then x else b
  | none => b

/-- Hexadecimal digit class of the tx-hash pattern. -/
def isHexDigitChar (c : Char) : Bool :=
  c.isDigit || ('a' ≤ c && c ≤ 'f') || ('A' ≤ c && c ≤ 'F')

/-- validateRequired of validation.ts applied to a string argument:
rejects exactly the empty string (undefined and null cannot occur for a
string-typed argument in the embedding). -/
def validateRequiredStr (value : String) (fieldName : String) : Except SdkError Unit :=
  if value = "" then Except.error (SdkError.validationError (fieldName ++ " is required"))
  else Except.ok ()

/-- Boolean form of the tx-hash regular expression 0x followed by 64
hexadecimal characters, computed over the character list of the string. -/
def txHashOk (s : String) : Bool :=
  s.data.length = 66 && decide (s.data.take 2 = ['0', 'x']) && (s.data.drop 2).all isHexDigitChar

/-- validateTxHash of validation.ts. -/
def validateTxHash (txHash : String) : Except SdkError Unit :=
  if txHash ≠ "" && txHashOk txHash then Except.ok ()
  else Except.error (SdkError.validationError ("Invalid transaction hash: " ++ txHash))

/-- Splitting a character list at every dot, mirroring the JavaScript
split call on the single-character separator dot. -/
def splitOnDot : List Char → List (List Char)
  | [] => [[]]
  | c :: rest =>
    let r := splitOnDot rest
    if c = '.' then [] :: r
    else
      match r with
      | [] => [[c]]
      | seg :: segs => (c :: seg) :: segs

/-- validateMandateToken of validation.ts: a non-empty string of length
at least 10 that splits on the dot into exactly three segments. -/
def validateMandateToken (token : String) : Except SdkError Unit :=
  if token = "" ∨ token.data.length < 10 then
    Except.error (SdkError.validationError "Invalid mandate token")
  else if (splitOnDot token.data).length ≠ 3 then
    Except.error (SdkError.validationError "Invalid mandate token format (expected JWT-like structure)")
  else Except.ok ()

/-- The supported chain list of validation.ts. -/
def SUPPORTED_CHAINS : List String := ["ethereum", "base", "polygon", "arbitrum"]

/-- The supported token list of validation.ts. -/
def SUPPORTED_TOKENS : List String := ["USDC", "USDT", "DAI"]

/-- validateChain of validation.ts. -/
def validateChain (chain : String) : Except SdkError Unit :=
  if SUPPORTED_CHAINS.contains chain then Except.ok ()
  else Except.error (SdkError.validationError ("Unsupported chain: " ++ chain))

/-- validateToken of validation.ts. -/
def validateToken (token : String) : Except SdkError Unit :=
  if SUPPORTED_TOKENS.contains token then Except.ok ()
  else Except.error (SdkError.validationError ("Unsupported token: " ++ token))

/-- validateAmount of validation.ts: rejects NaN and every value
less-or-equal 0 under JavaScript comparison (the typeof test of the
source is vacuous for a number-typed argument).  Plus infinity passes. -/
def validateAmount (amount : JsNum) (fieldName : String) : Except SdkError Unit :=
  if jsIsNaN amount || jsLeZero amount then
    Except.error (SdkError.validationError (fieldName ++ " must be a positive number"))
  else Except.ok ()

deriving instance DecidableEq for Except

/-!
Mandate lifecycle manager, embedded from ConfigLoader in
src/javascript/src/config-loader.ts.  The fields budget_remaining and
budgetUsd are modelled as rationals (the source parses the former from
a decimal string with parseFloat and compares it against the fixed dust
threshold 0.01).  Times are integers: mandateExpiresAt is in epoch
milliseconds, the expiresAt of an issuance response is in epoch
seconds, and Date.now() becomes the explicit parameter now.
-/

/-- The payload of a successful mandate verification, reduced to the
one field ensureMandateValid reads (budget_remaining, already passed
through parseFloat). -/
structure MandatePayload where
  budget_remaining : ℚ
deriving Repr, DecidableEq

/-- The response of the remote mandate verify operation. -/
structure VerifyMandateResponse where
  valid : Bool
  payload : Option MandatePayload
deriving Repr, DecidableEq

/-- The response of the remote mandate issue operation, reduced to the
fields ensureMandateValid reads.  The expiresAt field is epoch seconds. -/
structure IssueMandateResponse where
  mandateToken : String
  expiresAt : Int
deriving Repr, DecidableEq

/-- The remote gateway as seen by ensureMandateValid: the verify call
on a token and the issue call on subject, budget, scope and ttl, each
resolved to the value or error the awaited promise would produce. -/
structure MandateClient where
  verify : String → Except SdkError VerifyMandateResponse
  issue : String → ℚ → String → Int → Except SdkError IssueMandateResponse

/-- The mandate section of the public configuration file. -/
structure MandateConfig where
  budgetUsd : ℚ
  ttlMinutes : Option Int
  scope : Option String
deriving Repr, DecidableEq

/-- The mutable state of a ConfigLoader instance: the configuration
(immutable after construction) and the mandate cache fields, absent at
construction. -/
structure ConfigLoaderState where
  agentId : String
  mandate : MandateConfig
  cachedMandateToken : Option String
  mandateExpiresAt : Option Int
deriving Repr, DecidableEq

/-- getMandateConfig of config-loader.ts with its defaults of 10080
minutes and scope star. -/
def getMandateConfig (st : ConfigLoaderState) : String × ℚ × String × Int :=
  (st.agentId, st.mandate.budgetUsd,
    (st.mandate.scope.getD "*"),
    (st.mandate.ttlMinutes.getD 10080))

/-- The guard of ensureMandateValid: cachedMandateToken truthy,
mandateExpiresAt truthy and mandateExpiresAt greater than Date.now().
An undefined field and, for the expiry, the number 0 are falsy. -/
def cacheFresh (now : Int) (st : ConfigLoaderState) : Bool :=
  optStrTruthy st.cachedMandateToken &&
  (match st.mandateExpiresAt with
   | none => false
   | some e => decide (e ≠ 0) && decide (e > now))

/-- Result of one ensureMandateValid call: the returned token or the
propagated error, the state after the call, and how many remote verify
and issue calls were made. -/
structure EnsureResult where
  result : Except SdkError String
  state : ConfigLoaderState
  verifyCalls : Nat
  issueCalls : Nat
deriving Repr, DecidableEq

/-- The renewal tail of ensureMandateValid: issue a new mandate from
the configured settings; on success overwrite both cache fields
(expiry converted to milliseconds) and return the new token; on
failure the exception propagates before any cache assignment runs, so
the state is unchanged. -/
def renewMandate (client : MandateClient) (st : ConfigLoaderState) (vCalls : Nat) : EnsureResult :=
  let cfg := getMandateConfig st
  match client.issue cfg.1 cfg.2.1 cfg.2.2.1 cfg.2.2.2 with
  | Except.ok m =>
    { result := Except.ok m.mandateToken,
      state := { st with cachedMandateToken := some m.mandateToken,
                         mandateExpiresAt := some (m.expiresAt * 1000) },
      verifyCalls := vCalls, issueCalls := 1 }
  | Except.error e =>
    { result := Except.error e, state := st, verifyCalls := vCalls, issueCalls := 1 }

/-- ensureMandateValid of config-loader.ts.  When the cache is fresh it
verifies the cached token remotely: a valid response with
budget_remaining above the 0.01 dust threshold is reused; an invalid
response, an exhausted budget, or any exception inside the try block
(including the property access on an absent payload) falls through to
renewal, the exception being swallowed by the catch.  A stale or
absent cache skips verification entirely and renews. -/
def ensureMandateValid (client : MandateClient) (now : Int) (st : ConfigLoaderState) : EnsureResult :=
  if cacheFresh now st then
    match client.verify (st.cachedMandateToken.getD "") with
    | Except.ok v =>
      if v.valid then
        match v.payload with
        | some p =>
          if p.budget_remaining > mkRat 1 100 then
            { result := Except.ok (st.cachedMandateToken.getD ""),
              state := st, verifyCalls := 1, issueCalls := 0 }
          else
            renewMandate client st 1
        | none => renewMandate client st 1
      else
        renewMandate client st 1
    | Except.error _ => renewMandate client st 1
  else
    renewMandate client st 0

/-!
Payment settlement protocol, embedded from PaymentsModule.  The
resource-fetch request of submitTxHash is a parameter of type
Except SdkError (Option ResourceData): the value the awaited
this.http.get call produces, with response.data possibly undefined.
-/

/-- The fields submitTxHash reads from response.data, each possibly
absent under the optional-chaining access of the source. -/
structure ResourceData where
  amount_usd : Option JsNum
  budget_remaining : Option JsNum
deriving Repr, DecidableEq

/-- SubmitPaymentResponse of types.ts, with the fields submitTxHash
populates. -/
structure SubmitPaymentResponse where
  success : Bool
  status : String
  txHash : String
  txHashCommission : Option String
  amountUsd : JsNum
  budgetRemaining : JsNum
  resource : Option ResourceData
  error : Option String
deriving Repr, DecidableEq

/-- The validation prefix of submitTxHash, in source order: required
checks on mandate and txHash, mandate token shape, primary hash
pattern, chain and token membership, the commission hash pattern when
the argument is truthy, and the amount check when priceUsd is not
undefined. -/
def submitValidate (mandate txHash : String) (txHashCommission : Option String)
    (chain token : String) (priceUsd : Option JsNum) : Except SdkError Unit :=
  validateRequiredStr mandate "mandate" >>= fun _ =>
  validateRequiredStr txHash "txHash" >>= fun _ =>
  validateMandateToken mandate >>= fun _ =>
  validateTxHash txHash >>= fun _ =>
  validateChain chain >>= fun _ =>
  validateToken token >>= fun _ =>
  (if optStrTruthy txHashCommission then validateTxHash (txHashCommission.getD "")
   else pure ()) >>= fun _ =>
  match priceUsd with
  | some v => validateAmount v "priceUsd"
  | none => pure ()

/-- submitTxHash of PaymentsModule.  After local validation it performs
the resource-fetch request (the http parameter).  A successful response
yields the completed result, with amountUsd and budgetRemaining read
from response.data under JavaScript or-defaulting.  A raised
InvalidTransactionError is converted into the failed result carrying
the gateway reason; every other raised error propagates unchanged. -/
def submitTxHash (http : Except SdkError (Option ResourceData))
    (mandate txHash : String) (txHashCommission : Option String)
    (chain token : String) (priceUsd : Option JsNum) :
    Except SdkError SubmitPaymentResponse := do
  submitValidate mandate txHash txHashCommission chain token priceUsd
  match http with
  | Except.ok data =>
    pure { success := true, status := "completed", txHash := txHash,
           txHashCommission := txHashCommission,
           amountUsd := jsOrOpt (data.bind ResourceData.amount_usd)
                          (jsOrOpt priceUsd (JsNum.finite 0)),
           budgetRemaining := jsOrOpt (data.bind ResourceData.budget_remaining) (JsNum.finite 0),
           resource := data, error := none }
  | Except.error e =>
    match e with
    | SdkError.invalidTransactionError _ reason =>
      pure { success := false, status := "failed", txHash := txHash,
             txHashCommission := txHashCommission,
             amountUsd := JsNum.finite 0, budgetRemaining := JsNum.finite 0,
             resource := none, error := some reason }
    | _ => throw e

/-!
Confirmation polling, embedded from PaymentsModule.waitForConfirmation.
The verify parameter gives, for each attempt index, the value or error
the inner this.verify call produces on that attempt (the remote record
can change between polls, hence the index).  The loop is embedded with
the remaining attempt count as fuel; sleeps counts how many intervalMs
delays were awaited, so total elapsed sleeping time is
sleeps * intervalMs.
-/

/-- The fields of a PaymentVerification record that waitForConfirmation
reads. -/
structure PaymentVerification where
  status : String
  error : Option String
deriving Repr, DecidableEq

/-- Result of a waitForConfirmation call: the returned record or the
raised error, the number of verify calls made and the number of
intervalMs sleeps awaited. -/
structure PollResult where
  result : Except SdkError PaymentVerification
  verifyCalls : Nat
  sleeps : Nat
deriving Repr, DecidableEq

/-- The timeout error thrown after exhausting maxAttempts, naming the
transaction hash and the attempt count as in the source template
string. -/
def timeoutError (txHash : String) (maxAttempts : Nat) : SdkError :=
  SdkError.genericError
    ("Transaction " ++ txHash ++ " not confirmed after " ++ toString maxAttempts ++ " attempts")

/-- One-for-one embedding of the for-loop of waitForConfirmation.  On a
completed record the loop returns it; on a failed record it throws an
InvalidTransactionError built from the record error (statusCode 400, so
the catch rethrows it); on any other status it sleeps and continues.  A
caught error with statusCode 404 consumes the attempt and continues
WITHOUT sleeping (the await of the delay sits inside the try, after the
verify call, and is skipped when verify throws); any other caught error
is rethrown immediately. -/
def pollLoop (verify : Nat → Except SdkError PaymentVerification)
    (txHash : String) (maxAttempts : Nat) (i : Nat) (fuel : Nat)
    (calls sleeps : Nat) : PollResult :=
  match fuel with
  | 0 => { result := Except.error (timeoutError txHash maxAttempts),
           verifyCalls := calls, sleeps := sleeps }
  | Nat.succ fuel =>
    match verify i with
    | Except.ok v =>
      if v.status = "completed" then
        { result := Except.ok v, verifyCalls := calls + 1, sleeps := sleeps }
      else if v.status = "failed" then
        { result := Except.error
            (SdkError.invalidTransactionError
              ("Transaction failed: " ++ v.error.getD "undefined")
              (v.error.getD "Unknown error")),
          verifyCalls := calls + 1, sleeps := sleeps }
      else
        pollLoop verify txHash maxAttempts (i + 1) fuel (calls + 1) (sleeps + 1)
    | Except.error e =>
      if statusCodeOf e = some 404 then
        pollLoop verify txHash maxAttempts (i + 1) fuel (calls + 1) sleeps
      else
        { result := Except.error e, verifyCalls := calls + 1, sleeps := sleeps }

/-- waitForConfirmation of PaymentsModule: the two local validations on
the hash, then the polling loop over maxAttempts attempts. -/
def waitForConfirmation (verify : Nat → Except SdkError PaymentVerification)
    (txHash : String) (maxAttempts : Nat) : PollResult :=
  match (do validateRequiredStr txHash "txHash"; validateTxHash txHash :
         Except SdkError Unit) with
  | Except.error e => { result := Except.error e, verifyCalls := 0, sleeps := 0 }
  | Except.ok _ => pollLoop verify txHash maxAttempts 0 maxAttempts 0 0

/-!
Webhook authenticity verifier, embedded from WebhooksModule.  The HMAC
computation of the node crypto library is an external collaborator and
is a parameter hmacHex: hmacHex secret payload stands for the lowercase
hexadecimal digest of HMAC-SHA256 keyed by secret over the raw payload.
JSON parsing is likewise a parameter parseJson, returning none exactly
when JSON.parse would throw.
-/

/-- WebhookPayload of types.ts, reduced to an abstract parsed value
(no claim reads inside it). -/
structure WebhookPayload where
  eventType : String
deriving Repr, DecidableEq

/-- verifySignature of WebhooksModule: the three required checks, then
an equality comparison of the signature argument against the computed
digest.  Returns the boolean; the only raised error is the
ValidationError of a missing (empty) argument. -/
def verifySignature (hmacHex : String → String → String)
    (payload signature secret : String) : Except SdkError Bool := do
  validateRequiredStr payload "payload"
  validateRequiredStr signature "signature"
  validateRequiredStr secret "secret"
  pure (signature = hmacHex secret payload)

/-- verifyAndParse of WebhooksModule: calls verifySignature (its
ValidationError on an empty argument propagates); on false throws the
authenticity error; on true parses the raw payload, throwing the parse
error exactly when parsing fails. -/
def verifyAndParse (hmacHex : String → String → String)
    (parseJson : String → Option WebhookPayload)
    (payload signature secret : String) : Except SdkError WebhookPayload := do
  let ok ← verifySignature hmacHex payload signature secret
  if ok then
    match parseJson payload with
    | some v => pure v
    | none => throw (SdkError.genericError "Invalid webhook payload JSON")
  else
    throw (SdkError.genericError "Invalid webhook signature")

/-!
Statement predicates and concrete instances used by the claim
theorems below.
-/

/-- A well-formed sample transaction hash for concrete instances. -/
def sampleTxHash : String := "0x" ++ String.mk (List.replicate 64 '0')

/-- A well-formed sample mandate token (three dot-separated segments,
twelve characters) for concrete instances. -/
def sampleMandate : String := "aaaa.bbbb.cc"

/-- An Except computation whose every error value is a ValidationError. -/
def onlyValidationErrors {α : Type} (x : Except SdkError α) : Prop :=
  ∀ e, x = Except.error e → ∃ m, e = SdkError.validationError m

/-- The precondition violations of the amended C9 claim: mandate token
too short or not three segments, malformed primary hash, truthy but
malformed commission hash, unsupported chain or token, or a supplied
priceUsd that is NaN or not strictly positive under JavaScript
comparison.  (A positive infinite priceUsd is NOT rejected by the
source, which checks only isNaN and non-positivity.) -/
def submitPreconditionViolated (mandate txHash : String) (txHashCommission : Option String)
    (chain token : String) (priceUsd : Option JsNum) : Prop :=
  mandate.data.length < 10 ∨ (splitOnDot mandate.data).length ≠ 3 ∨
  txHashOk txHash = false ∨
  (optStrTruthy txHashCommission = true ∧ txHashOk (txHashCommission.getD "") = false) ∨
  SUPPORTED_CHAINS.contains chain = false ∨ SUPPORTED_TOKENS.contains token = false ∨
  (∃ v, priceUsd = some v ∧ (jsIsNaN v = true ∨ jsLeZero v = true))

/-- A polling outcome the loop treats as transient: a record whose
status is neither terminal value, or a raised error whose statusCode is
404 (the not-found signal). -/
def transientOutcome : Except SdkError PaymentVerification → Prop
  | Except.ok v => v.status ≠ "completed" ∧ v.status ≠ "failed"
  | Except.error e => statusCodeOf e = some 404

instance (r : Except SdkError PaymentVerification) : Decidable (transientOutcome r) :=
  match r with
  | Except.ok _ => inferInstanceAs (Decidable (_ ∧ _))
  | Except.error _ => inferInstanceAs (Decidable (_ = _))

/-- The C1 property, as a predicate on a client, a current time and a
loader state: renewal happens exactly when the cache is not fresh
(absent or locally expired), the remote verify errors, reports invalid,
or reports a budget at or below the 0.01 dust threshold; a stale or
absent cache triggers no verify call; and the only error the call can
propagate is the renewal failure of the issue call. -/
def ensureRenewalSpec (client : MandateClient) (now : Int) (st : ConfigLoaderState) : Prop :=
  ((ensureMandateValid client now st).issueCalls = 1 ↔
    (cacheFresh now st = false ∨
     (∃ e, client.verify (st.cachedMandateToken.getD "") = Except.error e) ∨
     (∃ v, client.verify (st.cachedMandateToken.getD "") = Except.ok v ∧ v.valid = false) ∨
     (∃ v p, client.verify (st.cachedMandateToken.getD "") = Except.ok v ∧ v.payload = some p ∧
             p.budget_remaining ≤ mkRat 1 100))) ∧
  (cacheFresh now st = false → (ensureMandateValid client now st).verifyCalls = 0) ∧
  (∀ e, (ensureMandateValid client now st).result = Except.error e →
     client.issue st.agentId st.mandate.budgetUsd (st.mandate.scope.getD "*")
       (st.mandate.ttlMinutes.getD 10080) = Except.error e)

/-- A loader state with a cached mandate expiring at epoch millisecond
5000, used as concrete instance for the lifecycle claims. -/
def configStateCached : ConfigLoaderState :=
  { agentId := "agent@example.com",
    mandate := { budgetUsd := 100, ttlMinutes := none, scope := none },
    cachedMandateToken := some "abc.def.ghij",
    mandateExpiresAt := some 5000 }

/-- A gateway whose verify call reports the cached token valid with
five dollars remaining and whose issue call succeeds. -/
def clientReuse : MandateClient :=
  { verify := fun _ => Except.ok { valid := true, payload := some { budget_remaining := 5 } },
    issue := fun _ _ _ _ => Except.ok { mandateToken := "hdr.pay.sig", expiresAt := 9 } }

/-- A gateway whose verify call reports the cached token invalid and
whose issue call fails. -/
def clientRenewFails : MandateClient :=
  { verify := fun _ => Except.ok { valid := false, payload := none },
    issue := fun _ _ _ _ =>
      Except.error (SdkError.mandateError "Failed to issue mandate" "ISSUE_FAILED") }

/-!
Claims about the webhook authenticity verifier.
-/

/-- C6: for non-empty payload, signature and secret, verifySignature
returns (without raising) exactly the boolean equality of the signature
against the digest hmacHex secret payload; consequently a payload whose
digest differs from the original one (in particular any single-byte
change, the digests being distinct) makes it return false. -/
theorem verifySignature_eq_iff_digest (hmacHex : String → String → String)
    (payload signature secret : String)
    (hp : payload ≠ "") (hs : signature ≠ "") (hk : secret ≠ "") :
    verifySignature hmacHex payload signature secret =
      Except.ok (decide (signature = hmacHex secret payload)) ∧
    (∀ payload2 : String, payload2 ≠ "" →
      hmacHex secret payload2 ≠ hmacHex secret payload →
      signature = hmacHex secret payload →
      verifySignature hmacHex payload2 signature secret = Except.ok false) := by
  constructor
  · simp [verifySignature, validateRequiredStr, hp, hs, hk, bind, Except.bind, pure, Except.pure]
  · intro payload2 hp2 hdiff hsig
    simp only [verifySignature, validateRequiredStr, hp2, hs, hk, if_neg, bind, Except.bind]
    simp [hp2, hs, hk, pure, Except.pure]
    intro h
    exact hdiff (h ▸ hsig.symm).symm

/-- Witness for the C6 theorem at a concrete digest function and
concrete strings. -/
theorem verifySignature_eq_iff_digest_witness :
    verifySignature (fun k p => k ++ p) "a" "ka" "k" = Except.ok true ∧
    verifySignature (fun k p => k ++ p) "b" "ka" "k" = Except.ok false := by
  have h := verifySignature_eq_iff_digest (fun k p => k ++ p) "a" "ka" "k"
    (by decide) (by decide) (by decide)
  refine ⟨?_, ?_⟩
  · have h1 := h.1
    simpa using h1
  · exact h.2 "b" (by decide) (by decide) (by decide)

/-- C7: with non-empty arguments, a signature that does not match the
digest makes verifyAndParse raise the authenticity error whatever the
parser would do (so no parse is attempted before verification
succeeds); a matching signature with an unparsable payload raises the
distinct parse error; a matching signature with a parsable payload
returns the parsed value.  The two error values are distinct. -/
theorem verifyAndParse_authenticity_before_parse (hmacHex : String → String → String)
    (parseJson : String → Option WebhookPayload) (payload signature secret : String)
    (hp : payload ≠ "") (hs : signature ≠ "") (hk : secret ≠ "") :
    (signature ≠ hmacHex secret payload →
      ∀ pj : String → Option WebhookPayload,
        verifyAndParse hmacHex pj payload signature secret =
          Except.error (SdkError.genericError "Invalid webhook signature")) ∧
    (signature = hmacHex secret payload → parseJson payload = none →
      verifyAndParse hmacHex parseJson payload signature secret =
        Except.error (SdkError.genericError "Invalid webhook payload JSON")) ∧
    (∀ v, signature = hmacHex secret payload → parseJson payload = some v →
      verifyAndParse hmacHex parseJson payload signature secret = Except.ok v) ∧
    SdkError.genericError "Invalid webhook signature" ≠
      SdkError.genericError "Invalid webhook payload JSON" := by
  refine ⟨?_, ?_, ?_, by decide⟩
  · intro hsig pj
    simp [verifyAndParse, verifySignature, validateRequiredStr, hp, hs, hk,
      bind, Except.bind, pure, Except.pure, hsig, throw, throwThe, MonadExceptOf.throw]
  · intro hsig hparse
    subst hsig
    simp [verifyAndParse, verifySignature, validateRequiredStr, hp, hs, hk,
      bind, Except.bind, pure, Except.pure, hparse, throw, throwThe, MonadExceptOf.throw]
  · intro v hsig hparse
    subst hsig
    simp [verifyAndParse, verifySignature, validateRequiredStr, hp, hs, hk,
      bind, Except.bind, pure, Except.pure, hparse]

/-- Witness for the C7 theorem: a tampered signature is rejected
without parsing, a matching one parses. -/
theorem verifyAndParse_authenticity_before_parse_witness :
    verifyAndParse (fun k p => k ++ p) (fun _ => none) "a" "xa" "k" =
      Except.error (SdkError.genericError "Invalid webhook signature") ∧
    verifyAndParse (fun k p => k ++ p) (fun _ => none) "a" "ka" "k" =
      Except.error (SdkError.genericError "Invalid webhook payload JSON") ∧
    verifyAndParse (fun k p => k ++ p) (fun _ => some { eventType := "payment.completed" })
        "a" "ka" "k" = Except.ok { eventType := "payment.completed" } := by
  refine ⟨?_, ?_, ?_⟩
  · exact (verifyAndParse_authenticity_before_parse (fun k p => k ++ p) (fun _ => none)
      "a" "xa" "k" (by decide) (by decide) (by decide)).1 (by decide) _
  · exact (verifyAndParse_authenticity_before_parse (fun k p => k ++ p) (fun _ => none)
      "a" "ka" "k" (by decide) (by decide) (by decide)).2.1 (by decide) rfl
  · exact (verifyAndParse_authenticity_before_parse (fun k p => k ++ p)
      (fun _ => some { eventType := "payment.completed" })
      "a" "ka" "k" (by decide) (by decide) (by decide)).2.2.1 _ (by decide) rfl

/-- C10: an empty payload, signature or secret makes verifySignature,
and hence verifyAndParse, raise a ValidationError, the required-value
check treating the empty string like an absent argument; in particular
an empty raw body is rejected even when the signature is exactly the
digest of the empty string. -/
theorem verifySignature_empty_argument_validation (hmacHex : String → String → String)
    (parseJson : String → Option WebhookPayload) (payload signature secret : String)
    (h : payload = "" ∨ signature = "" ∨ secret = "") :
    (∃ m, verifySignature hmacHex payload signature secret =
            Except.error (SdkError.validationError m) ∧
          verifyAndParse hmacHex parseJson payload signature secret =
            Except.error (SdkError.validationError m)) ∧
    verifySignature hmacHex "" (hmacHex secret "") secret =
      Except.error (SdkError.validationError "payload is required") := by
  constructor
  · rcases h with h | h | h
    · exact ⟨"payload is required", by
        simp [verifySignature, verifyAndParse, validateRequiredStr, h,
          bind, Except.bind]⟩
    · by_cases hp : payload = ""
      · exact ⟨"payload is required", by
          simp [verifySignature, verifyAndParse, validateRequiredStr, hp,
            bind, Except.bind]⟩
      · exact ⟨"signature is required", by
          simp [verifySignature, verifyAndParse, validateRequiredStr, hp, h,
            bind, Except.bind]⟩
    · by_cases hp : payload = ""
      · exact ⟨"payload is required", by
          simp [verifySignature, verifyAndParse, validateRequiredStr, hp,
            bind, Except.bind]⟩
      · by_cases hs : signature = ""
        · exact ⟨"signature is required", by
            simp [verifySignature, verifyAndParse, validateRequiredStr, hp, hs,
              bind, Except.bind]⟩
        · exact ⟨"secret is required", by
            simp [verifySignature, verifyAndParse, validateRequiredStr, hp, hs, h,
              bind, Except.bind]⟩
  · simp [verifySignature, validateRequiredStr, bind, Except.bind]

/-- Witness for the C10 theorem: the empty body with its correct digest
is still rejected with a ValidationError. -/
theorem verifySignature_empty_argument_validation_witness :
    (∃ m, verifySignature (fun k p => k ++ p) "" "k" "k" =
            Except.error (SdkError.validationError m) ∧
          verifyAndParse (fun k p => k ++ p) (fun _ => none) "" "k" "k" =
            Except.error (SdkError.validationError m)) ∧
    verifySignature (fun k p => k ++ p) "" ((fun (k p : String) => k ++ p) "k" "") "k" =
      Except.error (SdkError.validationError "payload is required") :=
  verifySignature_empty_argument_validation (fun k p => k ++ p) (fun _ => none)
    "" "k" "k" (Or.inl rfl)

/-!
Claims about the payment settlement protocol.
-/

/-- C3: on inputs passing local validation, a request that raises
InvalidTransactionError makes submitTxHash return the failed result
carrying the gateway reason instead of raising, while any other raised
error propagates to the caller unchanged. -/
theorem submitTxHash_domain_failure_returned (mandate txHash : String)
    (txHashCommission : Option String) (chain token : String) (priceUsd : Option JsNum)
    (hval : submitValidate mandate txHash txHashCommission chain token priceUsd = Except.ok ()) :
    (∀ msg reason,
      submitTxHash (Except.error (SdkError.invalidTransactionError msg reason))
          mandate txHash txHashCommission chain token priceUsd =
        Except.ok { success := false, status := "failed", txHash := txHash,
                    txHashCommission := txHashCommission,
                    amountUsd := JsNum.finite 0, budgetRemaining := JsNum.finite 0,
                    resource := none, error := some reason }) ∧
    (∀ e : SdkError, (∀ msg reason, e ≠ SdkError.invalidTransactionError msg reason) →
      submitTxHash (Except.error e) mandate txHash txHashCommission chain token priceUsd =
        Except.error e) := by
  constructor
  · intro msg reason
    simp [submitTxHash, hval, bind, Except.bind, pure, Except.pure]
  · intro e he
    cases e <;>
      first
      | exact absurd rfl (he _ _)
      | simp [submitTxHash, hval, bind, Except.bind, throw, throwThe, MonadExceptOf.throw]

/-- Witness for the C3 theorem on concrete well-formed inputs. -/
theorem submitTxHash_domain_failure_returned_witness :
    submitTxHash (Except.error (SdkError.invalidTransactionError "Invalid transaction" "already spent"))
        sampleMandate sampleTxHash none "base" "USDC" none =
      Except.ok { success := false, status := "failed", txHash := sampleTxHash,
                  txHashCommission := none,
                  amountUsd := JsNum.finite 0, budgetRemaining := JsNum.finite 0,
                  resource := none, error := some "already spent" } ∧
    submitTxHash (Except.error (SdkError.networkError "gateway unreachable"))
        sampleMandate sampleTxHash none "base" "USDC" none =
      Except.error (SdkError.networkError "gateway unreachable") := by
  have h := submitTxHash_domain_failure_returned sampleMandate sampleTxHash none "base" "USDC" none
    (by decide)
  exact ⟨h.1 "Invalid transaction" "already spent",
         h.2 (SdkError.networkError "gateway unreachable")
           (fun msg reason hne => SdkError.noConfusion hne)⟩

/-- Bind preserves the only-ValidationError property. -/
theorem onlyValidationErrors_bind {α β : Type} {x : Except SdkError α}
    {f : α → Except SdkError β}
    (hx : onlyValidationErrors x) (hf : ∀ a, onlyValidationErrors (f a)) :
    onlyValidationErrors (x >>= f) := by
  intro e he
  cases hxv : x with
  | error e0 =>
    have he0 : e0 = e := by
      rw [hxv] at he
      simpa [bind, Except.bind] using he
    exact he0 ▸ hx e0 hxv
  | ok a =>
    apply hf a
    rw [hxv] at he
    simpa [bind, Except.bind] using he

/-- Pure computations raise nothing. -/
theorem onlyValidationErrors_pure {α : Type} (a : α) :
    onlyValidationErrors (pure a : Except SdkError α) := by
  intro e he
  simp [pure, Except.pure] at he

theorem validateRequiredStr_onlyVE (s n : String) : onlyValidationErrors (validateRequiredStr s n) := by
  intro e he
  unfold validateRequiredStr at he
  split at he
  · exact ⟨_, (Except.error.inj he).symm⟩
  · simp at he

theorem validateMandateToken_onlyVE (s : String) : onlyValidationErrors (validateMandateToken s) := by
  intro e he
  unfold validateMandateToken at he
  split at he
  · exact ⟨_, (Except.error.inj he).symm⟩
  · split at he
    · exact ⟨_, (Except.error.inj he).symm⟩
    · simp at he

theorem validateTxHash_onlyVE (s : String) : onlyValidationErrors (validateTxHash s) := by
  intro e he
  unfold validateTxHash at he
  split at he
  · simp at he
  · exact ⟨_, (Except.error.inj he).symm⟩

theorem validateChain_onlyVE (s : String) : onlyValidationErrors (validateChain s) := by
  intro e he
  unfold validateChain at he
  split at he
  · simp at he
  · exact ⟨_, (Except.error.inj he).symm⟩

theorem validateToken_onlyVE (s : String) : onlyValidationErrors (validateToken s) := by
  intro e he
  unfold validateToken at he
  split at he
  · simp at he
  · exact ⟨_, (Except.error.inj he).symm⟩

theorem validateAmount_onlyVE (v : JsNum) (n : String) : onlyValidationErrors (validateAmount v n) := by
  intro e he
  unfold validateAmount at he
  split at he
  · exact ⟨_, (Except.error.inj he).symm⟩
  · simp at he

/-- Every error submitValidate can produce is a ValidationError. -/
theorem submitValidate_onlyVE (mandate txHash : String) (txHashCommission : Option String)
    (chain token : String) (priceUsd : Option JsNum) :
    onlyValidationErrors (submitValidate mandate txHash txHashCommission chain token priceUsd) := by
  unfold submitValidate
  apply onlyValidationErrors_bind (validateRequiredStr_onlyVE _ _); intro _
  apply onlyValidationErrors_bind (validateRequiredStr_onlyVE _ _); intro _
  apply onlyValidationErrors_bind (validateMandateToken_onlyVE _); intro _
  apply onlyValidationErrors_bind (validateTxHash_onlyVE _); intro _
  apply onlyValidationErrors_bind (validateChain_onlyVE _); intro _
  apply onlyValidationErrors_bind (validateToken_onlyVE _); intro _
  apply onlyValidationErrors_bind
  · split
    · exact validateTxHash_onlyVE _
    · exact onlyValidationErrors_pure _
  · intro _
    cases priceUsd with
    | some v => exact validateAmount_onlyVE _ _
    | none => exact onlyValidationErrors_pure _

/-- Inversion of a successful Except bind. -/
theorem except_bind_ok {ε α β : Type} {x : Except ε α} {f : α → Except ε β} {b : β}
    (h : (x >>= f) = Except.ok b) : ∃ a, x = Except.ok a ∧ f a = Except.ok b := by
  cases x with
  | error e => simp [bind, Except.bind] at h
  | ok a => exact ⟨a, rfl, by simpa [bind, Except.bind] using h⟩

theorem validateMandateToken_ok {s : String} {u : Unit}
    (h : validateMandateToken s = Except.ok u) :
    ¬ s.data.length < 10 ∧ (splitOnDot s.data).length = 3 := by
  unfold validateMandateToken at h
  split at h
  · simp at h
  · split at h
    · simp at h
    · rename_i h1 h2
      exact ⟨fun hl => h1 (Or.inr hl), not_ne_iff.mp h2⟩

theorem validateTxHash_ok {s : String} {u : Unit}
    (h : validateTxHash s = Except.ok u) : txHashOk s = true := by
  unfold validateTxHash at h
  split at h
  · rename_i hc
    simp at hc
    exact hc.2
  · simp at h

theorem validateChain_ok {s : String} {u : Unit}
    (h : validateChain s = Except.ok u) : SUPPORTED_CHAINS.contains s = true := by
  unfold validateChain at h
  split at h
  · rename_i hc
    simpa using hc
  · simp at h

theorem validateToken_ok {s : String} {u : Unit}
    (h : validateToken s = Except.ok u) : SUPPORTED_TOKENS.contains s = true := by
  unfold validateToken at h
  split at h
  · rename_i hc
    simpa using hc
  · simp at h

theorem validateAmount_ok {v : JsNum} {n : String} {u : Unit}
    (h : validateAmount v n = Except.ok u) : jsIsNaN v = false ∧ jsLeZero v = false := by
  unfold validateAmount at h
  split at h
  · simp at h
  · rename_i hc
    simpa [not_or] using hc

/-- A successful submitValidate implies every individual precondition
it checks. -/
theorem submitValidate_ok {mandate txHash : String} {txHashCommission : Option String}
    {chain token : String} {priceUsd : Option JsNum}
    (h : submitValidate mandate txHash txHashCommission chain token priceUsd = Except.ok ()) :
    ¬ mandate.data.length < 10 ∧ (splitOnDot mandate.data).length = 3 ∧
    txHashOk txHash = true ∧
    (optStrTruthy txHashCommission = true → txHashOk (txHashCommission.getD "") = true) ∧
    SUPPORTED_CHAINS.contains chain = true ∧ SUPPORTED_TOKENS.contains token = true ∧
    (∀ v, priceUsd = some v → jsIsNaN v = false ∧ jsLeZero v = false) := by
  unfold submitValidate at h
  obtain ⟨_, h1, h⟩ := except_bind_ok h
  obtain ⟨_, h2, h⟩ := except_bind_ok h
  obtain ⟨_, h3, h⟩ := except_bind_ok h
  obtain ⟨_, h4, h⟩ := except_bind_ok h
  obtain ⟨_, h5, h⟩ := except_bind_ok h
  obtain ⟨_, h6, h⟩ := except_bind_ok h
  obtain ⟨_, h7, h8⟩ := except_bind_ok h
  refine ⟨(validateMandateToken_ok h3).1, (validateMandateToken_ok h3).2,
          validateTxHash_ok h4, ?_, validateChain_ok h5, validateToken_ok h6, ?_⟩
  · intro ht
    rw [if_pos ht] at h7
    exact validateTxHash_ok h7
  · intro v hv
    rw [hv] at h8
    exact validateAmount_ok h8

/-- C9 (amended): on any input violating a precondition in the amended
sense, submitTxHash raises a ValidationError and its result does not
depend on the transport outcome at all, so no network request is
observable. -/
theorem submitTxHash_validation_no_network (mandate txHash : String)
    (txHashCommission : Option String) (chain token : String) (priceUsd : Option JsNum)
    (hbad : submitPreconditionViolated mandate txHash txHashCommission chain token priceUsd) :
    ∀ http http2 : Except SdkError (Option ResourceData),
      submitTxHash http mandate txHash txHashCommission chain token priceUsd =
        submitTxHash http2 mandate txHash txHashCommission chain token priceUsd ∧
      ∃ m, submitTxHash http mandate txHash txHashCommission chain token priceUsd =
             Except.error (SdkError.validationError m) := by
  cases hval : submitValidate mandate txHash txHashCommission chain token priceUsd with
  | ok u =>
    cases u
    exfalso
    obtain ⟨g1, g2, g3, g4, g5, g6, g7⟩ := submitValidate_ok hval
    unfold submitPreconditionViolated at hbad
    rcases hbad with hb | hb | hb | hb | hb | hb | hb
    · exact g1 hb
    · exact hb g2
    · simp [g3] at hb
    · obtain ⟨hb1, hb2⟩ := hb
      simp [g4 hb1] at hb2
    · rw [g5] at hb
      exact Bool.noConfusion hb
    · rw [g6] at hb
      exact Bool.noConfusion hb
    · obtain ⟨v, hv, hcase⟩ := hb
      obtain ⟨gn, gl⟩ := g7 v hv
      rcases hcase with hc | hc
      · simp [gn] at hc
      · simp [gl] at hc
  | error e =>
    obtain ⟨m, rfl⟩ :=
      submitValidate_onlyVE mandate txHash txHashCommission chain token priceUsd e hval
    intro http http2
    constructor
    · simp [submitTxHash, hval, bind, Except.bind]
    · exact ⟨m, by simp [submitTxHash, hval, bind, Except.bind]⟩

/-- Witness for the amended C9 theorem: an unsupported token is
rejected locally whatever the transport would have answered. -/
theorem submitTxHash_validation_no_network_witness :
    submitPreconditionViolated sampleMandate sampleTxHash none "base" "DOGE" none ∧
    (∃ m, submitTxHash (Except.ok none) sampleMandate sampleTxHash none "base" "DOGE" none =
            Except.error (SdkError.validationError m)) ∧
    submitTxHash (Except.ok none) sampleMandate sampleTxHash none "base" "DOGE" none =
      submitTxHash (Except.error (SdkError.networkError "down"))
        sampleMandate sampleTxHash none "base" "DOGE" none := by
  have hbad : submitPreconditionViolated sampleMandate sampleTxHash none "base" "DOGE" none :=
    Or.inr (Or.inr (Or.inr (Or.inr (Or.inr (Or.inl (by decide))))))
  obtain ⟨heq, m, hm⟩ :=
    submitTxHash_validation_no_network sampleMandate sampleTxHash none "base" "DOGE" none hbad
      (Except.ok none) (Except.error (SdkError.networkError "down"))
  exact ⟨hbad, ⟨m, hm⟩, heq⟩

/-- Counterexample to the original C9 claim: priceUsd equal to positive
infinity is not a finite positive number, yet submitTxHash does not
raise a ValidationError and the request is performed (the result tracks
the transport outcome). -/
theorem submitTxHash_posInf_passes_validation :
    submitTxHash (Except.ok none) sampleMandate sampleTxHash none "base" "USDC"
        (some JsNum.posInf) =
      Except.ok { success := true, status := "completed", txHash := sampleTxHash,
                  txHashCommission := none, amountUsd := JsNum.posInf,
                  budgetRemaining := JsNum.finite 0, resource := none, error := none } ∧
    submitTxHash (Except.error (SdkError.networkError "gateway unreachable"))
        sampleMandate sampleTxHash none "base" "USDC" (some JsNum.posInf) =
      Except.error (SdkError.networkError "gateway unreachable") := by
  constructor
  · decide
  · decide

/-- If the first p outcomes from index i are transient and the outcome
at index i + p is a failed record, the loop stops there with the
InvalidTransactionError of that record, after exactly p + 1 further
verify calls. -/
theorem pollLoop_reaches_failure (verify : Nat → Except SdkError PaymentVerification)
    (txHash : String) (maxAttempts : Nat) (v : PaymentVerification)
    (hst : v.status = "failed") :
    ∀ p i fuel calls sleeps, p < fuel →
      (∀ j, j < p → transientOutcome (verify (i + j))) →
      verify (i + p) = Except.ok v →
      (pollLoop verify txHash maxAttempts i fuel calls sleeps).result =
        Except.error (SdkError.invalidTransactionError
          ("Transaction failed: " ++ v.error.getD "undefined")
          (v.error.getD "Unknown error")) ∧
      (pollLoop verify txHash maxAttempts i fuel calls sleeps).verifyCalls = calls + p + 1 := by
  intro p
  induction p with
  | zero =>
    intro i fuel calls sleeps hpf htrans hv
    match fuel, hpf with
    | Nat.succ fuel, _ =>
      have hvi : verify i = Except.ok v := by simpa using hv
      constructor <;> simp [pollLoop, hvi, hst]
  | succ p ih =>
    intro i fuel calls sleeps hpf htrans hv
    match fuel, hpf with
    | Nat.succ fuel, hpf =>
      have h0 : transientOutcome (verify i) := by simpa using htrans 0 (Nat.succ_pos p)
      have htrans2 : ∀ j, j < p → transientOutcome (verify (i + 1 + j)) := by
        intro j hj
        have := htrans (j + 1) (Nat.succ_lt_succ hj)
        rwa [show i + (j + 1) = i + 1 + j by omega] at this
      have hv2 : verify (i + 1 + p) = Except.ok v := by
        rwa [show i + 1 + p = i + (p + 1) by omega]
      cases hvi : verify i with
      | ok w =>
        rw [hvi] at h0
        obtain ⟨hw1, hw2⟩ := h0
        have step := ih (i + 1) fuel (calls + 1) (sleeps + 1)
          (Nat.lt_of_succ_lt_succ hpf) htrans2 hv2
        have hgoal : pollLoop verify txHash maxAttempts i (Nat.succ fuel) calls sleeps =
            pollLoop verify txHash maxAttempts (i + 1) fuel (calls + 1) (sleeps + 1) := by
          simp [pollLoop, hvi, hw1, hw2]
        rw [hgoal]
        exact ⟨step.1, by rw [step.2]; omega⟩
      | error e =>
        rw [hvi] at h0
        have h0c : statusCodeOf e = some 404 := h0
        have step := ih (i + 1) fuel (calls + 1) sleeps
          (Nat.lt_of_succ_lt_succ hpf) htrans2 hv2
        simp only [pollLoop, hvi]
        rw [if_pos h0c]
        exact ⟨step.1, by rw [step.2]; omega⟩

/-- C4: on a valid hash, when the first k - 1 polls are transient and
the k-th poll returns a failed record, waitForConfirmation raises an
InvalidTransactionError carrying the gateway reason after exactly k
verify calls. -/
theorem waitForConfirmation_failed_raises (verify : Nat → Except SdkError PaymentVerification)
    (txHash : String) (maxAttempts k : Nat) (reason : String)
    (htx1 : txHash ≠ "") (htx2 : txHashOk txHash = true)
    (hk1 : 1 ≤ k) (hk2 : k ≤ maxAttempts)
    (htrans : ∀ j, j < k - 1 → transientOutcome (verify j))
    (hfail : verify (k - 1) = Except.ok { status := "failed", error := some reason }) :
    (waitForConfirmation verify txHash maxAttempts).result =
      Except.error (SdkError.invalidTransactionError
        ("Transaction failed: " ++ reason) reason) ∧
    (waitForConfirmation verify txHash maxAttempts).verifyCalls = k := by
  have hw : waitForConfirmation verify txHash maxAttempts =
      pollLoop verify txHash maxAttempts 0 maxAttempts 0 0 := by
    unfold waitForConfirmation
    simp [validateRequiredStr, validateTxHash, htx1, htx2, bind, Except.bind]
  have step := pollLoop_reaches_failure verify txHash maxAttempts
    { status := "failed", error := some reason } rfl (k - 1) 0 maxAttempts 0 0
    (by omega) (by simpa using htrans) (by simpa using hfail)
  rw [hw]
  refine ⟨?_, ?_⟩
  · simpa using step.1
  · rw [step.2]; omega

/-- Witness for the C4 theorem: two pending polls then a failed one,
with five attempts allowed, make exactly three verify calls and raise
the gateway reason. -/
theorem waitForConfirmation_failed_raises_witness :
    (waitForConfirmation
        (fun j => if j < 2 then Except.ok { status := "pending", error := none }
                  else Except.ok { status := "failed", error := some "insufficient funds" })
        sampleTxHash 5).result =
      Except.error (SdkError.invalidTransactionError
        ("Transaction failed: " ++ "insufficient funds") "insufficient funds") ∧
    (waitForConfirmation
        (fun j => if j < 2 then Except.ok { status := "pending", error := none }
                  else Except.ok { status := "failed", error := some "insufficient funds" })
        sampleTxHash 5).verifyCalls = 3 :=
  waitForConfirmation_failed_raises
    (fun j => if j < 2 then Except.ok { status := "pending", error := none }
              else Except.ok { status := "failed", error := some "insufficient funds" })
    sampleTxHash 5 3 "insufficient funds"
    (by decide) (by decide) (by decide) (by decide) (by decide) (by decide)

/-- When every poll raises the not-found error, the loop consumes all
its fuel, making one verify call per unit of fuel and never sleeping,
and ends in the timeout error. -/
theorem pollLoop_never_found (verify : Nat → Except SdkError PaymentVerification)
    (txHash : String) (maxAttempts : Nat)
    (h404 : ∀ j, ∃ e, verify j = Except.error e ∧ statusCodeOf e = some 404) :
    ∀ fuel i calls sleeps, pollLoop verify txHash maxAttempts i fuel calls sleeps =
      { result := Except.error (timeoutError txHash maxAttempts),
        verifyCalls := calls + fuel, sleeps := sleeps } := by
  intro fuel
  induction fuel with
  | zero =>
    intro i calls sleeps
    simp [pollLoop]
  | succ fuel ih =>
    intro i calls sleeps
    obtain ⟨e, he, hc⟩ := h404 i
    simp only [pollLoop, he]
    rw [if_pos hc, ih (i + 1) (calls + 1) sleeps,
      show calls + 1 + fuel = calls + (fuel + 1) by omega]

/-- C5 (behavior the code actually has): on a valid hash, a transaction
the gateway reports not-found on every poll makes waitForConfirmation
perform exactly maxAttempts verify calls, raise the timeout error
naming the hash and the attempt count, and await ZERO intervalMs
sleeps: the delay in the loop body sits after the verify call inside
the try block and is skipped whenever verify throws, so the not-found
path polls back-to-back with no pause. -/
theorem waitForConfirmation_never_found_no_sleep
    (verify : Nat → Except SdkError PaymentVerification)
    (txHash : String) (maxAttempts : Nat)
    (htx1 : txHash ≠ "") (htx2 : txHashOk txHash = true)
    (h404 : ∀ j, ∃ e, verify j = Except.error e ∧ statusCodeOf e = some 404) :
    waitForConfirmation verify txHash maxAttempts =
      { result := Except.error (timeoutError txHash maxAttempts),
        verifyCalls := maxAttempts, sleeps := 0 } := by
  have hw : waitForConfirmation verify txHash maxAttempts =
      pollLoop verify txHash maxAttempts 0 maxAttempts 0 0 := by
    unfold waitForConfirmation
    simp [validateRequiredStr, validateTxHash, htx1, htx2, bind, Except.bind]
  rw [hw, pollLoop_never_found verify txHash maxAttempts h404 maxAttempts 0 0 0]
  simp

/-- Witness for the C5 theorem: five not-found polls, timeout named
after the hash and five attempts, zero sleeps. -/
theorem waitForConfirmation_never_found_no_sleep_witness :
    waitForConfirmation (fun _ => Except.error (SdkError.apiError "Payment not found" 404))
        sampleTxHash 5 =
      { result := Except.error (timeoutError sampleTxHash 5), verifyCalls := 5, sleeps := 0 } :=
  waitForConfirmation_never_found_no_sleep
    (fun _ => Except.error (SdkError.apiError "Payment not found" 404))
    sampleTxHash 5 (by decide) (by decide)
    (fun _ => ⟨SdkError.apiError "Payment not found" 404, rfl, rfl⟩)

/-!
Claims about the mandate lifecycle manager.
-/

theorem renewMandate_eq_ok (client : MandateClient) (st : ConfigLoaderState) (n : Nat)
    (m : IssueMandateResponse)
    (h : client.issue st.agentId st.mandate.budgetUsd (st.mandate.scope.getD "*")
           (st.mandate.ttlMinutes.getD 10080) = Except.ok m) :
    renewMandate client st n =
      { result := Except.ok m.mandateToken,
        state := { st with cachedMandateToken := some m.mandateToken,
                           mandateExpiresAt := some (m.expiresAt * 1000) },
        verifyCalls := n, issueCalls := 1 } := by
  unfold renewMandate
  dsimp only [getMandateConfig]
  rw [h]

theorem renewMandate_eq_error (client : MandateClient) (st : ConfigLoaderState) (n : Nat)
    (e : SdkError)
    (h : client.issue st.agentId st.mandate.budgetUsd (st.mandate.scope.getD "*")
           (st.mandate.ttlMinutes.getD 10080) = Except.error e) :
    renewMandate client st n =
      { result := Except.error e, state := st, verifyCalls := n, issueCalls := 1 } := by
  unfold renewMandate
  dsimp only [getMandateConfig]
  rw [h]

theorem renewMandate_issueCalls (client : MandateClient) (st : ConfigLoaderState) (n : Nat) :
    (renewMandate client st n).issueCalls = 1 := by
  cases h : client.issue st.agentId st.mandate.budgetUsd (st.mandate.scope.getD "*")
      (st.mandate.ttlMinutes.getD 10080) with
  | ok m => rw [renewMandate_eq_ok client st n m h]
  | error e => rw [renewMandate_eq_error client st n e h]

theorem renewMandate_verifyCalls (client : MandateClient) (st : ConfigLoaderState) (n : Nat) :
    (renewMandate client st n).verifyCalls = n := by
  cases h : client.issue st.agentId st.mandate.budgetUsd (st.mandate.scope.getD "*")
      (st.mandate.ttlMinutes.getD 10080) with
  | ok m => rw [renewMandate_eq_ok client st n m h]
  | error e => rw [renewMandate_eq_error client st n e h]

theorem renewMandate_result_error (client : MandateClient) (st : ConfigLoaderState) (n : Nat)
    (e : SdkError) (h : (renewMandate client st n).result = Except.error e) :
    client.issue st.agentId st.mandate.budgetUsd (st.mandate.scope.getD "*")
      (st.mandate.ttlMinutes.getD 10080) = Except.error e := by
  cases hi : client.issue st.agentId st.mandate.budgetUsd (st.mandate.scope.getD "*")
      (st.mandate.ttlMinutes.getD 10080) with
  | ok m =>
    rw [renewMandate_eq_ok client st n m hi] at h
    exact absurd h (by simp)
  | error e0 =>
    rw [renewMandate_eq_error client st n e0 hi] at h
    have he : e0 = e := by simpa using h
    rw [he]

theorem renewMandate_state_error (client : MandateClient) (st : ConfigLoaderState) (n : Nat)
    (e : SdkError) (h : (renewMandate client st n).result = Except.error e) :
    (renewMandate client st n).state = st := by
  cases hi : client.issue st.agentId st.mandate.budgetUsd (st.mandate.scope.getD "*")
      (st.mandate.ttlMinutes.getD 10080) with
  | ok m =>
    rw [renewMandate_eq_ok client st n m hi] at h
    exact absurd h (by simp)
  | error e0 =>
    rw [renewMandate_eq_error client st n e0 hi]

/-- Every call of ensureMandateValid either reuses a fresh, verified,
unexhausted cache unchanged, or runs the renewal tail (after 0 remote
verify calls if the cache was stale or absent, after 1 otherwise). -/
theorem ensureMandateValid_cases (client : MandateClient) (now : Int) (st : ConfigLoaderState) :
    (cacheFresh now st = true ∧
     (∃ v p, client.verify (st.cachedMandateToken.getD "") = Except.ok v ∧ v.valid = true ∧
        v.payload = some p ∧ p.budget_remaining > mkRat 1 100) ∧
     ensureMandateValid client now st =
       { result := Except.ok (st.cachedMandateToken.getD ""), state := st,
         verifyCalls := 1, issueCalls := 0 }) ∨
    (∃ n, ensureMandateValid client now st = renewMandate client st n) := by
  cases hf : cacheFresh now st with
  | false => exact Or.inr ⟨0, by simp [ensureMandateValid, hf]⟩
  | true =>
    cases hv : client.verify (st.cachedMandateToken.getD "") with
    | error e => exact Or.inr ⟨1, by simp [ensureMandateValid, hf, hv]⟩
    | ok v =>
      cases hval : v.valid with
      | false => exact Or.inr ⟨1, by simp [ensureMandateValid, hf, hv, hval]⟩
      | true =>
        cases hpay : v.payload with
        | none => exact Or.inr ⟨1, by simp [ensureMandateValid, hf, hv, hval, hpay]⟩
        | some p =>
          by_cases hbud : p.budget_remaining > mkRat 1 100
          · exact Or.inl ⟨rfl, ⟨v, p, rfl, hval, hpay, hbud⟩,
              by simp [ensureMandateValid, hf, hv, hval, hpay, hbud]⟩
          · exact Or.inr ⟨1, by simp [ensureMandateValid, hf, hv, hval, hpay, hbud]⟩

/-- C1: for a gateway whose valid verification responses carry a
payload, ensureMandateValid issues a new mandate exactly when the cache
is absent or locally expired, the verify call errors or reports
invalid, or the verified budget is at most the dust threshold; a stale
cache skips verification entirely, and a verify error is never
surfaced: any propagated error is the issue-call failure. -/
theorem ensureMandateValid_renewal_conditions (client : MandateClient) (now : Int)
    (st : ConfigLoaderState)
    (hp : ∀ v, client.verify (st.cachedMandateToken.getD "") = Except.ok v →
            v.valid = true → v.payload ≠ none) :
    ensureRenewalSpec client now st := by
  unfold ensureRenewalSpec
  cases hf : cacheFresh now st with
  | false =>
    have hre : ensureMandateValid client now st = renewMandate client st 0 := by
      simp [ensureMandateValid, hf]
    refine ⟨iff_of_true (by rw [hre]; exact renewMandate_issueCalls client st 0) (Or.inl rfl),
            fun _ => by rw [hre]; exact renewMandate_verifyCalls client st 0,
            fun e he => by rw [hre] at he; exact renewMandate_result_error client st 0 e he⟩
  | true =>
    cases hv : client.verify (st.cachedMandateToken.getD "") with
    | error e0 =>
      have hre : ensureMandateValid client now st = renewMandate client st 1 := by
        simp [ensureMandateValid, hf, hv]
      refine ⟨iff_of_true (by rw [hre]; exact renewMandate_issueCalls client st 1)
                (Or.inr (Or.inl ⟨e0, rfl⟩)),
              fun hff => absurd hff (by simp),
              fun e he => by rw [hre] at he; exact renewMandate_result_error client st 1 e he⟩
    | ok v =>
      cases hval : v.valid with
      | false =>
        have hre : ensureMandateValid client now st = renewMandate client st 1 := by
          simp [ensureMandateValid, hf, hv, hval]
        refine ⟨iff_of_true (by rw [hre]; exact renewMandate_issueCalls client st 1)
                  (Or.inr (Or.inr (Or.inl ⟨v, rfl, hval⟩))),
                fun hff => absurd hff (by simp),
                fun e he => by rw [hre] at he; exact renewMandate_result_error client st 1 e he⟩
      | true =>
        cases hpay : v.payload with
        | none => exact absurd hpay (hp v hv hval)
        | some p =>
          by_cases hbud : p.budget_remaining > mkRat 1 100
          · have hre : ensureMandateValid client now st =
                { result := Except.ok (st.cachedMandateToken.getD ""), state := st,
                  verifyCalls := 1, issueCalls := 0 } := by
              simp [ensureMandateValid, hf, hv, hval, hpay, hbud]
            refine ⟨iff_of_false (by rw [hre]; simp) ?_,
                    fun hff => absurd hff (by simp),
                    fun e he => by rw [hre] at he; exact absurd he (by simp)⟩
            rintro (h1 | ⟨e, he⟩ | ⟨v2, hv2, hval2⟩ | ⟨v2, p2, hv2, hp2, hb2⟩)
            · exact Bool.noConfusion h1
            · exact Except.noConfusion he
            · have hvv := Except.ok.inj hv2
              subst hvv
              exact Bool.noConfusion (hval.symm.trans hval2)
            · have hvv := Except.ok.inj hv2
              subst hvv
              have hpp := Option.some.inj (hpay.symm.trans hp2)
              subst hpp
              exact absurd hb2 (not_le.mpr hbud)
          · have hre : ensureMandateValid client now st = renewMandate client st 1 := by
              simp [ensureMandateValid, hf, hv, hval, hpay, hbud]
            refine ⟨iff_of_true (by rw [hre]; exact renewMandate_issueCalls client st 1)
                      (Or.inr (Or.inr (Or.inr ⟨v, p, rfl, hpay, not_lt.mp hbud⟩))),
                    fun hff => absurd hff (by simp),
                    fun e he => by
                      rw [hre] at he
                      exact renewMandate_result_error client st 1 e he⟩

/-- Witness for the C1 theorem on a concrete client and state. -/
theorem ensureMandateValid_renewal_conditions_witness :
    ensureRenewalSpec clientReuse 1000 configStateCached :=
  ensureMandateValid_renewal_conditions clientReuse 1000 configStateCached (by
    intro v hv hval
    have h2 : Except.ok ({ valid := true, payload := some { budget_remaining := 5 } } :
        VerifyMandateResponse) = Except.ok v := hv
    rw [← Except.ok.inj h2]
    simp)

/-- C2: with a cached token present, truthy and locally unexpired, a
verify response reporting it valid with a budget above the dust
threshold, two immediately successive ensureMandateValid calls both
return exactly the cached token, leave the state untouched and issue
nothing. -/
theorem ensureMandateValid_reuse_idempotent (client : MandateClient) (now : Int)
    (st : ConfigLoaderState) (t : String) (e0 : Int) (p : MandatePayload)
    (ht : st.cachedMandateToken = some t) (htne : t ≠ "")
    (he : st.mandateExpiresAt = some e0) (he0 : e0 ≠ 0) (hegt : e0 > now)
    (hv : client.verify t = Except.ok { valid := true, payload := some p })
    (hb : p.budget_remaining > mkRat 1 100) :
    ensureMandateValid client now st =
      { result := Except.ok t, state := st, verifyCalls := 1, issueCalls := 0 } ∧
    ensureMandateValid client now (ensureMandateValid client now st).state =
      { result := Except.ok t, state := st, verifyCalls := 1, issueCalls := 0 } := by
  have hf : cacheFresh now st = true := by
    simp [cacheFresh, ht, he, optStrTruthy, htne, he0, hegt]
  have h1 : ensureMandateValid client now st =
      { result := Except.ok t, state := st, verifyCalls := 1, issueCalls := 0 } := by
    simp [ensureMandateValid, hf, ht, hv, hb]
  refine ⟨h1, ?_⟩
  rw [h1]
  exact h1

/-- Witness for the C2 theorem on a concrete client and state. -/
theorem ensureMandateValid_reuse_idempotent_witness :
    ensureMandateValid clientReuse 1000 configStateCached =
      { result := Except.ok "abc.def.ghij", state := configStateCached,
        verifyCalls := 1, issueCalls := 0 } ∧
    ensureMandateValid clientReuse 1000
        (ensureMandateValid clientReuse 1000 configStateCached).state =
      { result := Except.ok "abc.def.ghij", state := configStateCached,
        verifyCalls := 1, issueCalls := 0 } :=
  ensureMandateValid_reuse_idempotent clientReuse 1000 configStateCached
    "abc.def.ghij" 5000 { budget_remaining := 5 }
    rfl (by decide) rfl (by decide) (by decide) rfl (by decide)

/-- Counterexample to the original C8 claim: the cache is not cleared
when verification reports the token invalid; after the renewal attempt
fails, the instance still holds the known-invalid token in its cache. -/
theorem ensureMandateValid_failed_renewal_retains_token :
    (ensureMandateValid clientRenewFails 1000 configStateCached).result =
      Except.error (SdkError.mandateError "Failed to issue mandate" "ISSUE_FAILED") ∧
    (ensureMandateValid clientRenewFails 1000 configStateCached).state.cachedMandateToken =
      some "abc.def.ghij" := by
  constructor <;> rfl

/-- C8 (amended): the cache is replaced wholesale exactly on a
successful issuance; on any propagated error (a failed renewal) the
state, including the stale cached token, is left exactly as it was. -/
theorem ensureMandateValid_cache_overwrite_only_on_success (client : MandateClient)
    (now : Int) (st : ConfigLoaderState) :
    (∀ e, (ensureMandateValid client now st).result = Except.error e →
       (ensureMandateValid client now st).state = st) ∧
    (∀ m, client.issue st.agentId st.mandate.budgetUsd (st.mandate.scope.getD "*")
            (st.mandate.ttlMinutes.getD 10080) = Except.ok m →
       (ensureMandateValid client now st).issueCalls = 1 →
       (ensureMandateValid client now st).state =
         { st with cachedMandateToken := some m.mandateToken,
                   mandateExpiresAt := some (m.expiresAt * 1000) }) := by
  rcases ensureMandateValid_cases client now st with ⟨hf, hex, hre⟩ | ⟨n, hre⟩
  · constructor
    · intro e hres
      rw [hre] at hres
      simp at hres
    · intro m hm h1
      rw [hre] at h1
      simp at h1
  · constructor
    · intro e hres
      rw [hre] at hres ⊢
      exact renewMandate_state_error client st n e hres
    · intro m hm h1
      rw [hre]
      rw [renewMandate_eq_ok client st n m hm]

/-- Witness for the amended C8 theorem: with the failing issuer, the
state after the call is exactly the prior state. -/
theorem ensureMandateValid_cache_overwrite_only_on_success_witness :
    (ensureMandateValid clientRenewFails 1000 configStateCached).state = configStateCached :=
  (ensureMandateValid_cache_overwrite_only_on_success clientRenewFails 1000 configStateCached).1
    (SdkError.mandateError "Failed to issue mandate" "ISSUE_FAILED") rfl
